import Mathlib

/-!
Verification development for the OdooDevMCP repository.

The Lean definitions below are shallow embeddings of the Python source:

* `Json`, `jeq`, `isFalsy`, `fieldsSet`, `pyHasKey`, `pyIndex` model the JSON
  values and the Python dict/`in`/indexing semantics the handlers rely on;
* `recv_register` / `recv_heartbeat` embed the Flask routes `register` and
  `heartbeat` of `src/receiver/server.py`;
* `check_rate_limit` embeds `check_rate_limit` of `src/security/security.py`;
* `register_loop` / `register_server` embed `register_server` of
  `src/services/phone_home.py`;
* `cron_send_heartbeat` embeds `MCPHeartbeat._cron_send_heartbeat` of
  `src/models/mcp_heartbeat.py`;
* `get_tool_registry` / `get_tool_schemas` embed `src/tools/registry.py`;
* `handle_request` and its sub-handlers embed `MCPServerHandler` of
  `src/services/mcp_server.py`.

Fallible Python code (statements that can raise) is modelled with
`Except String`, the raised exception message being the `String`.
-/

namespace OdooMCP

/-- JSON values as produced by `request.get_json()` and handled by the server.
Python `None` is `null`; numbers are restricted to integers, which covers every
numeric literal the embedded code paths manipulate. Object fields keep
insertion order, as Python dicts do. -/
inductive Json where
  | null
  | bool (b : Bool)
  | int (n : Int)
  | str (s : String)
  | arr (elems : List Json)
  | obj (fields : List (String × Json))

mutual

/-- Python `==` on JSON values (structural equality). -/
def jeq : Json → Json → Bool
  | .null, .null => true
  | .bool a, .bool b => a == b
  | .int a, .int b => a == b
  | .str a, .str b => a == b
  | .arr a, .arr b => jeqList a b
  | .obj a, .obj b => jeqFields a b
  | _, _ => false

def jeqList : List Json → List Json → Bool
  | [], [] => true
  | a :: as_, b :: bs => jeq a b && jeqList as_ bs
  | _, _ => false

def jeqFields : List (String × Json) → List (String × Json) → Bool
  | [], [] => true
  | (k, v) :: as_, (k2, v2) :: bs => k == k2 && jeq v v2 && jeqFields as_ bs
  | _, _ => false

end

/-- Python truthiness test (`if not data`): `None`, `False`, `0`, the empty
string, the empty list and the empty dict are falsy. -/
def isFalsy : Json → Bool
  | .null => true
  | .bool b => !b
  | .int n => n == 0
  | .str s => s == ""
  | .arr xs => xs.isEmpty
  | .obj fs => fs.isEmpty

/-- Python dict update `d[k] = v`: replace the value in place if the key is
present (keeping its position), append the pair otherwise. -/
def fieldsSet : List (String × Json) → String → Json → List (String × Json)
  | [], k, v => [(k, v)]
  | (k2, v2) :: rest, k, v =>
    if k2 = k then (k2, v) :: rest else (k2, v2) :: fieldsSet rest k v

/-- True iff the character list `pat` occurs inside `s` (Python substring
membership `pat in s`). -/
def charsHaveSub : List Char → List Char → Bool
  | _, [] => true
  | [], _ :: _ => false
  | c :: rest, pat => pat.isPrefixOf (c :: rest) || charsHaveSub rest pat

/-- Python membership `key in data`, for a string `key`: key lookup on dicts,
element membership on lists, substring test on strings; a `TypeError` is
raised on non-container values. -/
def pyHasKey : Json → String → Except String Bool
  | .obj fs, k => .ok (List.lookup k fs).isSome
  | .arr xs, k => .ok (xs.any (fun e => jeq e (.str k)))
  | .str s, k => .ok (charsHaveSub s.toList k.toList)
  | _, _ => .error "TypeError: argument of type is not iterable"

/-- Python indexing `data[k]` with a string key: dict key lookup (raising
`KeyError` when absent), `TypeError` on every other value. -/
def pyIndex : Json → String → Except String Json
  | .obj fs, k =>
    match List.lookup k fs with
    | some v => .ok v
    | none => .error ("KeyError: " ++ k)
  | _, _ => .error "TypeError: value does not support string indexing"

/-! ## Fleet receiver (src/receiver/server.py)

The in-memory `servers` dict maps the posted `server_id` value to the stored
record. We model it as an association list over `Json` keys compared with
Python equality `jeq`; values are the stored record objects. -/

/-- Storage behind the receiver routes: the module-level `servers` dict. -/
abbrev ServerTable := List (Json × Json)

/-- Python dict lookup `servers.get(k)` / `k in servers` basis. -/
def tableGet : ServerTable → Json → Option Json
  | [], _ => none
  | (k2, v) :: rest, k => if jeq k2 k then some v else tableGet rest k

/-- Python dict update `servers[k] = v` (first-inserted key object is kept,
as CPython does). -/
def tableSet : ServerTable → Json → Json → ServerTable
  | [], k, v => [(k, v)]
  | (k2, v2) :: rest, k, v =>
    if jeq k2 k then (k2, v) :: rest else (k2, v2) :: tableSet rest k v

/-- Embeds the `register` route (src/receiver/server.py lines 39-67).
`now` stands for the value of `get_current_timestamp()`. The result is the
updated `servers` table, the HTTP status code and the JSON response body. -/
def recv_register (servers : ServerTable) (data : Json) (now : String) :
    Except String (ServerTable × Nat × Json) :=
  if isFalsy data then
    .ok (servers, 400, .obj [("error", .str "No JSON payload provided")])
  else
    match pyHasKey data "server_id" with
    | .error e => .error e
    | .ok hasId =>
      if !hasId then
        .ok (servers, 400, .obj [("error", .str "Missing required field: server_id")])
      else
        match pyIndex data "server_id" with
        | .error e => .error e
        | .ok sid =>
          match data with
          | .obj fs =>
            let record := Json.obj
              (fieldsSet (fieldsSet (fieldsSet fs "registered_at" (.str now))
                "last_seen" (.str now)) "heartbeat_count" (.int 0))
            .ok (tableSet servers sid record, 201,
              .obj [("status", .str "registered"), ("server_id", sid)])
          | _ => .error "TypeError: mapping required for dict splat"

/-- Embeds the `heartbeat` route (src/receiver/server.py lines 70-102).
For a known `server_id` the stored record gets `last_seen` refreshed and
`heartbeat_count` incremented; every other field carried by the payload is
ignored. For an unknown `server_id` a minimal record is created. -/
def recv_heartbeat (servers : ServerTable) (data : Json) (now : String) :
    Except String (ServerTable × Nat × Json) :=
  if isFalsy data then
    .ok (servers, 400, .obj [("error", .str "No JSON payload provided")])
  else
    match pyHasKey data "server_id" with
    | .error e => .error e
    | .ok hasId =>
      if !hasId then
        .ok (servers, 400, .obj [("error", .str "Missing required field: server_id")])
      else
        match pyIndex data "server_id" with
        | .error e => .error e
        | .ok sid =>
          let updated : Except String ServerTable :=
            match tableGet servers sid with
            | none =>
              .ok (tableSet servers sid (.obj
                [("server_id", sid), ("last_seen", .str now), ("heartbeat_count", .int 1)]))
            | some record =>
              match record with
              | .obj fs =>
                let fs1 := fieldsSet fs "last_seen" (.str now)
                match List.lookup "heartbeat_count" fs1 with
                | some (.int n) =>
                  .ok (tableSet servers sid (.obj
                    (fieldsSet fs1 "heartbeat_count" (.int (n + 1)))))
                | some (.bool b) =>
                  .ok (tableSet servers sid (.obj
                    (fieldsSet fs1 "heartbeat_count" (.int ((if b then 1 else 0) + 1)))))
                | some _ => .error "TypeError: unsupported operand types for +="
                | none => .error "KeyError: heartbeat_count"
              | _ => .error "TypeError: object does not support item assignment"
          match updated with
          | .error e => .error e
          | .ok servers2 =>
            match tableGet servers2 sid with
            | none => .error "KeyError: server_id"
            | some record2 =>
              match pyIndex record2 "heartbeat_count" with
              | .error e => .error e
              | .ok hbc =>
                .ok (servers2, 200,
                  .obj [("status", .str "ok"), ("server_id", sid), ("heartbeat_count", hbc)])

mutual

theorem jeq_refl : (a : Json) → jeq a a = true
  | .null => by simp [jeq]
  | .bool b => by simp [jeq]
  | .int n => by simp [jeq]
  | .str s => by simp [jeq]
  | .arr xs => by simp [jeq, jeqList_refl xs]
  | .obj fs => by simp [jeq, jeqFields_refl fs]

theorem jeqList_refl : (xs : List Json) → jeqList xs xs = true
  | [] => by simp [jeqList]
  | a :: as_ => by simp [jeqList, jeq_refl a, jeqList_refl as_]

theorem jeqFields_refl : (fs : List (String × Json)) → jeqFields fs fs = true
  | [] => by simp [jeqFields]
  | (k, v) :: rest => by simp [jeqFields, jeq_refl v, jeqFields_refl rest]

end

theorem tableGet_tableSet_self (t : ServerTable) (k v : Json) :
    tableGet (tableSet t k v) k = some v := by
  induction t with
  | nil => simp [tableSet, tableGet, jeq_refl]
  | cons hd rest ih =>
    obtain ⟨k2, v2⟩ := hd
    by_cases h : jeq k2 k = true
    · simp [tableSet, tableGet, h]
    · simp only [tableSet, tableGet, h, if_neg, Bool.not_eq_true] at *
      simp [h, ih]

theorem lookup_fieldsSet_self (fs : List (String × Json)) (k : String) (v : Json) :
    List.lookup k (fieldsSet fs k v) = some v := by
  induction fs with
  | nil => simp [fieldsSet]
  | cons hd rest ih =>
    obtain ⟨k2, v2⟩ := hd
    by_cases h : k2 = k
    · subst h; simp [fieldsSet]
    · have hb : (k == k2) = false := by simp [Ne.symm h]
      simp [fieldsSet, h, List.lookup, hb, ih]

/-- Intermediate receiver state for the C1 scenario: the table after a server
registered with hostname `old-hostname`. -/
def c1_record1 : List (String × Json) :=
  [("server_id", .str "s1"), ("hostname", .str "old-hostname"),
   ("registered_at", .str "T0"), ("last_seen", .str "T0"), ("heartbeat_count", .int 0)]

/-- Receiver state for the C1 scenario after a heartbeat carrying
`hostname = new-hostname` and `status = healthy`: only `last_seen` and
`heartbeat_count` changed. -/
def c1_record2 : List (String × Json) :=
  [("server_id", .str "s1"), ("hostname", .str "old-hostname"),
   ("registered_at", .str "T0"), ("last_seen", .str "T1"), ("heartbeat_count", .int 1)]

/-- Claim C1 (code_bug evidence). A heartbeat for an already-registered
`server_id` carrying `hostname` and `status` fields does NOT merge them into
the stored record: the stored `hostname` keeps its registration-time value and
the carried `status` field is absent afterwards; only `last_seen` and
`heartbeat_count` change (the latter by exactly one). This contradicts the
claimed fleet-side merge invariant and the repository test suite
(`src/tests/test_receiver_server.py`). -/
theorem recv_heartbeat_ignores_carried_fields :
    recv_register [] (.obj [("server_id", .str "s1"), ("hostname", .str "old-hostname")]) "T0" =
      .ok ([(Json.str "s1", Json.obj c1_record1)], 201,
        .obj [("status", .str "registered"), ("server_id", .str "s1")]) ∧
    recv_heartbeat [(Json.str "s1", Json.obj c1_record1)]
        (.obj [("server_id", .str "s1"), ("hostname", .str "new-hostname"),
               ("status", .str "healthy")]) "T1" =
      .ok ([(Json.str "s1", Json.obj c1_record2)], 200,
        .obj [("status", .str "ok"), ("server_id", .str "s1"), ("heartbeat_count", .int 1)]) ∧
    List.lookup "hostname" c1_record2 = some (.str "old-hostname") ∧
    List.lookup "status" c1_record2 = none ∧
    List.lookup "heartbeat_count" c1_record2 = some (.int 1) := by
  refine ⟨?_, ?_, ?_, ?_, ?_⟩ <;> rfl

/-- Claim C10. A heartbeat for a `server_id` absent from the table succeeds
with status 200 and creates a fresh minimal record holding exactly
`server_id`, `last_seen` and `heartbeat_count = 1`; a subsequent registration
for the same `server_id` replaces the stored record wholesale with the new
payload plus metadata, in particular resetting `heartbeat_count` to 0. -/
theorem recv_heartbeat_unknown_server :
    (∀ (servers : ServerTable) (fs : List (String × Json)) (v : Json) (now : String),
      tableGet servers v = none →
      List.lookup "server_id" fs = some v →
      recv_heartbeat servers (.obj fs) now =
        .ok (tableSet servers v (.obj
              [("server_id", v), ("last_seen", .str now), ("heartbeat_count", .int 1)]),
          200,
          .obj [("status", .str "ok"), ("server_id", v), ("heartbeat_count", .int 1)])) ∧
    (∀ (servers : ServerTable) (fs : List (String × Json)) (v : Json) (now : String),
      List.lookup "server_id" fs = some v →
      recv_register servers (.obj fs) now =
        .ok (tableSet servers v (.obj
              (fieldsSet (fieldsSet (fieldsSet fs "registered_at" (.str now))
                "last_seen" (.str now)) "heartbeat_count" (.int 0))),
          201,
          .obj [("status", .str "registered"), ("server_id", v)])) ∧
    (∀ (fs : List (String × Json)) (now : String),
      List.lookup "heartbeat_count"
        (fieldsSet (fieldsSet (fieldsSet fs "registered_at" (.str now))
          "last_seen" (.str now)) "heartbeat_count" (.int 0)) = some (.int 0)) := by
  refine ⟨?_, ?_, ?_⟩
  · intro servers fs v now hget hlook
    have hne : fs.isEmpty = false := by
      cases fs
      · simp at hlook
      · rfl
    simp [recv_heartbeat, isFalsy, hne, pyHasKey, pyIndex, hlook, hget,
      tableGet_tableSet_self, List.lookup]
  · intro servers fs v now hlook
    have hne : fs.isEmpty = false := by
      cases fs
      · simp at hlook
      · rfl
    simp [recv_register, isFalsy, hne, pyHasKey, pyIndex, hlook]
  · intro fs now
    exact lookup_fieldsSet_self _ _ _

/-- Witness for C10 at a concrete unknown server id. -/
theorem recv_heartbeat_unknown_server_witness :
    recv_heartbeat [] (.obj [("server_id", .str "X")]) "T" =
      .ok ([(Json.str "X", Json.obj
            [("server_id", .str "X"), ("last_seen", .str "T"), ("heartbeat_count", .int 1)])],
        200,
        .obj [("status", .str "ok"), ("server_id", .str "X"), ("heartbeat_count", .int 1)]) :=
  recv_heartbeat_unknown_server.1 [] [("server_id", .str "X")] (.str "X") "T" rfl rfl

/-! ## Rate limiter (src/security/security.py lines 141-174) -/

/-- State behind `check_rate_limit`: the module-level `_rate_limit_state`
dict of dicts, keyed by database name then category. A missing entry reads as
the lazily-initialised empty bucket, so the state is a total function into
timestamp lists. Timestamps are rationals standing for `time.time()` values. -/
def RateLimitState : Type := String → String → List ℚ

/-- Core of `check_rate_limit` on a single bucket: prune the entries older
than `now - period` (the list comprehension keeps `c` with `now - c < period`),
reject iff the remaining count reaches `max_calls` (the `RuntimeError` raise),
otherwise append `now`. The pruned list is written back even on rejection,
mirroring the in-place `calls[:] = ...` assignment. -/
def checkBucket (calls : List ℚ) (max_calls : ℕ) (period now : ℚ) : Bool × List ℚ :=
  let pruned := calls.filter (fun c => now - c < period)
  if max_calls ≤ pruned.length then (false, pruned) else (true, pruned ++ [now])

/-- Embeds `check_rate_limit(env, category, max_calls, period)`: `dbname`
plays the role of `env.cr.dbname` and `now` that of `time.time()`. First
component `true` means the call is admitted; `false` means the
`Rate limit exceeded` RuntimeError is raised. -/
def check_rate_limit (st : RateLimitState) (dbname category : String)
    (max_calls : ℕ) (period now : ℚ) : Bool × RateLimitState :=
  let r := checkBucket (st dbname category) max_calls period now
  (r.1, fun db cat => if db = dbname ∧ cat = category then r.2 else st db cat)

/-- Sequential `check_rate_limit` calls against one bucket at the given
times, collecting the admit/reject outcomes. -/
def runBucket (max_calls : ℕ) (period : ℚ) : List ℚ → List ℚ → List Bool
  | _, [] => []
  | calls, t :: ts =>
    let r := checkBucket calls max_calls period t
    r.1 :: runBucket max_calls period r.2 ts

theorem runBucket_pattern (m : ℕ) (period : ℚ) :
    ∀ (ts calls : List ℚ),
      (∀ a ∈ calls, ∀ t ∈ ts, t - a < period) →
      (∀ a ∈ ts, ∀ b ∈ ts, b - a < period) →
      runBucket m period calls ts =
        List.replicate (min (m - calls.length) ts.length) true ++
          List.replicate (ts.length - (m - calls.length)) false := by
  intro ts
  induction ts with
  | nil => intro calls h1 h2; simp [runBucket]
  | cons t ts ih =>
    intro calls h1 h2
    have hfilter : calls.filter (fun c => t - c < period) = calls :=
      List.filter_eq_self.mpr (fun a ha => by simp [h1 a ha t (by simp)])
    have h2b : ∀ a ∈ ts, ∀ b ∈ ts, b - a < period :=
      fun a ha b hb => h2 a (by simp [ha]) b (by simp [hb])
    by_cases hm : m ≤ calls.length
    · have hstep : checkBucket calls m period t = (false, calls) := by
        simp [checkBucket, hfilter, hm]
      have h1b : ∀ a ∈ calls, ∀ s ∈ ts, s - a < period :=
        fun a ha s hs => h1 a ha s (by simp [hs])
      have h0 : m - calls.length = 0 := Nat.sub_eq_zero_of_le hm
      simp [runBucket, hstep, ih calls h1b h2b, h0, List.replicate_succ]
    · push_neg at hm
      have hstep : checkBucket calls m period t = (true, calls ++ [t]) := by
        simp [checkBucket, hfilter, Nat.not_le.mpr hm]
      have h1b : ∀ a ∈ calls ++ [t], ∀ s ∈ ts, s - a < period := by
        intro a ha s hs
        rcases List.mem_append.mp ha with h | h
        · exact h1 a h s (by simp [hs])
        · simp only [List.mem_singleton] at h
          subst h
          exact h2 a (by simp) s (by simp [hs])
      have e1 : min (m - calls.length) (ts.length + 1) =
          min (m - (calls.length + 1)) ts.length + 1 := by omega
      have e2 : (ts.length + 1) - (m - calls.length) =
          ts.length - (m - (calls.length + 1)) := by omega
      calc runBucket m period calls (t :: ts)
          = true :: runBucket m period (calls ++ [t]) ts := by simp [runBucket, hstep]
        _ = true :: (List.replicate (min (m - (calls.length + 1)) ts.length) true ++
              List.replicate (ts.length - (m - (calls.length + 1))) false) := by
            rw [ih (calls ++ [t]) h1b h2b]; simp
        _ = List.replicate (min (m - calls.length) (t :: ts).length) true ++
              List.replicate ((t :: ts).length - (m - calls.length)) false := by
            simp only [List.length_cons, e1, e2, List.replicate_succ, List.cons_append]

/-- Claim C2. The rate-limit check prunes, then rejects iff the surviving
count reaches `max_calls`, else appends: hence (a) in a fresh window whose
calls all lie within `period` of each other, the first `max_calls` calls are
admitted and the next one is rejected; (b) for a full bucket, a later call is
admitted exactly when some (in particular the oldest) recorded call has aged
at least `period`; (c) the concrete sliding-window trace with
`period = 0.1`, `max_calls = 2` at times 0, 0.03, 0.06, 0.11 is
admit, admit, reject, admit. -/
theorem check_rate_limit_sliding_window :
    (∀ (m : ℕ) (period : ℚ) (ts : List ℚ),
      1 ≤ m → ts.length = m + 1 →
      (∀ a ∈ ts, ∀ b ∈ ts, b - a < period) →
      runBucket m period [] ts = List.replicate m true ++ [false]) ∧
    (∀ (calls : List ℚ) (m : ℕ) (p t : ℚ),
      calls.length = m →
      ((checkBucket calls m p t).1 = true ↔ ∃ c ∈ calls, p ≤ t - c)) ∧
    runBucket 2 (1/10) [] [0, 3/100, 6/100, 11/100] = [true, true, false, true] := by
  refine ⟨?_, ?_, ?_⟩
  · intro m period ts hm hlen hwin
    have h := runBucket_pattern m period ts [] (by simp) hwin
    simpa [hlen, Nat.min_def, List.replicate_succ] using h
  · intro calls m p t hlen
    have : (checkBucket calls m p t).1 = true ↔
        (calls.filter (fun c => t - c < p)).length < m := by
      by_cases h : m ≤ (calls.filter (fun c => t - c < p)).length
      · simp [checkBucket, h, Nat.not_lt.mpr h]
      · simp [checkBucket, h, Nat.lt_of_not_le h]
    rw [this, ← hlen]
    rw [List.length_filter_lt_length_iff_exists]
    constructor
    · rintro ⟨c, hc, hnc⟩
      exact ⟨c, hc, by simpa using hnc⟩
    · rintro ⟨c, hc, hp⟩
      exact ⟨c, hc, by simpa using hp⟩
  · norm_num [runBucket, checkBucket, List.filter]

/-- Witness for C2 at concrete inputs. -/
theorem check_rate_limit_sliding_window_witness :
    runBucket 1 1 [] [0, 0] = List.replicate 1 true ++ [false] ∧
    ((checkBucket [(0 : ℚ)] 1 1 0).1 = true ↔ ∃ c ∈ [(0 : ℚ)], 1 ≤ 0 - c) :=
  ⟨check_rate_limit_sliding_window.1 1 1 [0, 0] (by norm_num) rfl (by norm_num),
   check_rate_limit_sliding_window.2.1 [0] 1 1 0 rfl⟩

/-- Claim C6. The check rejects iff, after pruning, the bucket holds at least
`max_calls` timestamps; with `max_calls = 0` every call is rejected; and a
rejected call appends nothing, leaving the bucket equal to its pruned value
(a rejected call consumes no quota). -/
theorem check_rate_limit_reject_iff_full :
    (∀ (st : RateLimitState) (db cat : String) (m : ℕ) (p t : ℚ),
      ((check_rate_limit st db cat m p t).1 = false ↔
        m ≤ ((st db cat).filter (fun c => t - c < p)).length)) ∧
    (∀ (st : RateLimitState) (db cat : String) (p t : ℚ),
      (check_rate_limit st db cat 0 p t).1 = false) ∧
    (∀ (st : RateLimitState) (db cat : String) (m : ℕ) (p t : ℚ),
      (check_rate_limit st db cat m p t).1 = false →
      (check_rate_limit st db cat m p t).2 db cat =
        (st db cat).filter (fun c => t - c < p)) := by
  refine ⟨?_, ?_, ?_⟩
  · intro st db cat m p t
    by_cases h : m ≤ ((st db cat).filter (fun c => t - c < p)).length
    · simp [check_rate_limit, checkBucket, h]
    · simp [check_rate_limit, checkBucket, h]
  · intro st db cat p t
    simp [check_rate_limit, checkBucket]
  · intro st db cat m p t hrej
    by_cases h : m ≤ ((st db cat).filter (fun c => t - c < p)).length
    · simp [check_rate_limit, checkBucket, h]
    · simp [check_rate_limit, checkBucket, h] at hrej

/-- Witness for C6: a rejected call (here with `max_calls = 0`) leaves the
bucket equal to its pruned value. -/
theorem check_rate_limit_reject_iff_full_witness :
    (check_rate_limit (fun _ _ => []) "d" "c" 0 1 0).2 "d" "c" =
      ([] : List ℚ).filter (fun c => (0 : ℚ) - c < 1) :=
  check_rate_limit_reject_iff_full.2.2 (fun _ _ => []) "d" "c" 0 1 0 rfl

/-! ## Interleaving model for the unsynchronised rate-limit check (claim C3)

`check_rate_limit` takes no lock, so when two worker threads run it against
the same bucket the three shared-state statements of its body interleave.
Each in-flight call is a `RaceThread`; its program counter walks through the
statements of the source body: pc 0 = the pruning write-back
(`calls[:] = [c for c in calls if now - c < period]`, line 167), pc 1 = the
length check (line 169), pc 2 = passed the check, about to run
`calls.append(now)` (line 174), pc 3 = finished with outcome `ok`. -/
structure RaceThread where
  time : ℚ
  pc : ℕ
  ok : Bool

/-- One atomic statement of one in-flight `check_rate_limit` call. -/
def raceStep (max_calls : ℕ) (period : ℚ) (bucket : List ℚ) (th : RaceThread) :
    List ℚ × RaceThread :=
  if th.pc = 0 then (bucket.filter (fun c => th.time - c < period), { th with pc := 1 })
  else if th.pc = 1 then
    if max_calls ≤ bucket.length then (bucket, { th with pc := 3, ok := false })
    else (bucket, { th with pc := 2 })
  else if th.pc = 2 then (bucket ++ [th.time], { th with pc := 3, ok := true })
  else (bucket, th)

/-- Run the interleaving named by `sched`: at each step, the thread with the
scheduled index executes its next atomic statement against the shared
bucket. -/
def raceRun (max_calls : ℕ) (period : ℚ) :
    List ℚ → List RaceThread → List ℕ → List ℚ × List RaceThread
  | bucket, threads, [] => (bucket, threads)
  | bucket, threads, i :: sched =>
    match threads[i]? with
    | none => raceRun max_calls period bucket threads sched
    | some th =>
      let r := raceStep max_calls period bucket th
      raceRun max_calls period r.1 (threads.set i r.2) sched

/-- Claim C3 (code_bug evidence). With `max_calls = 1` and two concurrent
callers on one bucket, the interleaving in which both callers pass the length
check before either appends admits BOTH calls (2 admitted where the claim
demands exactly 1 under every interleaving): the check-then-append sequence
of `check_rate_limit` is not serialized. Run sequentially, the same two calls
give exactly one admit. -/
theorem check_rate_limit_race_overadmits :
    ((raceRun 1 60 [] [⟨0, 0, false⟩, ⟨0, 0, false⟩] [0, 0, 1, 1, 1, 0]).2.filter
        (fun th => th.ok)).length = 2 ∧
    (raceRun 1 60 [] [⟨0, 0, false⟩, ⟨0, 0, false⟩] [0, 0, 1, 1, 1, 0]).2.all
        (fun th => th.pc == 3) = true ∧
    runBucket 1 60 [] [0, 0] = [true, false] := by
  refine ⟨rfl, rfl, ?_⟩
  norm_num [runBucket, checkBucket, List.filter]

/-! ## Phone-home registration (src/services/phone_home.py lines 103-163) -/

/-- Outcome of one `requests.post` call to `<receiver>/register`: an HTTP
status code, or a raised network exception with its message. -/
inductive PostResult where
  | status (code : ℕ)
  | exc (msg : String)

/-- True iff the attempt counts as success for the source
(`response.status_code in [200, 201]`); a raised exception never does. -/
def isSuccess : PostResult → Bool
  | .status c => c == 200 || c == 201
  | .exc _ => false

/-- The retry loop of `register_server`. The source iterates
`for attempt in range(retry_count)`; the list argument is the remaining part
of that range. A non-success attempt (non-2xx response or exception, both
logged and swallowed) falls through to the backoff sleep of `2 ** attempt`
seconds, executed only while `attempt < retry_count - 1`. The result is the
returned boolean, the number of POST attempts performed, and the list of
backoff sleep durations in order. -/
def register_loop (post : ℕ → PostResult) (retry_count : ℕ) :
    List ℕ → Bool × ℕ × List ℕ
  | [] => (false, 0, [])
  | attempt :: rest =>
    if isSuccess (post attempt) then (true, 1, [])
    else
      let sl := if attempt < retry_count - 1 then [2 ^ attempt] else []
      let r := register_loop post retry_count rest
      (r.1, r.2.1 + 1, sl ++ r.2.2)

/-- Embeds `register_server`: when `mcp.phone_home_url` is unset or empty
(falsy), return `False` with no outbound attempt; otherwise run the retry
loop over `range(retry_count)`. The outer try/except of the source is total
here: every `post` outcome, exceptions included, is consumed by the loop, so
no failure escapes as an exception. -/
def register_server (phone_home_url : Option String) (post : ℕ → PostResult)
    (retry_count : ℕ) : Bool × ℕ × List ℕ :=
  match phone_home_url with
  | none => (false, 0, [])
  | some u =>
    if u = "" then (false, 0, [])
    else register_loop post retry_count (List.range retry_count)

theorem register_loop_attempts_le (post : ℕ → PostResult) (rc : ℕ) :
    ∀ l : List ℕ, (register_loop post rc l).2.1 ≤ l.length := by
  intro l
  induction l with
  | nil => simp [register_loop]
  | cons a rest ih =>
    by_cases h : isSuccess (post a) = true
    · simp [register_loop, h]
    · simp only [register_loop, h, Bool.false_eq_true, if_false, List.length_cons]
      omega

theorem register_loop_fail (post : ℕ → PostResult) (rc : ℕ)
    (hfail : ∀ j, j < rc → isSuccess (post j) = false) :
    ∀ (n a : ℕ), a + n = rc →
      register_loop post rc (List.range' a n) =
        (false, n, (List.range' a (n - 1)).map (fun j => 2 ^ j)) := by
  intro n
  induction n with
  | zero => intro a ha; simp [register_loop]
  | succ n ih =>
    intro a ha
    have hfa : isSuccess (post a) = false := hfail a (by omega)
    cases n with
    | zero =>
      have hlast : ¬ a < rc - 1 := by omega
      simp [List.range', register_loop, hfa, hlast]
    | succ m =>
      have hsl : a < rc - 1 := by omega
      have ihx := ih (a + 1) (by omega)
      have hr1 : List.range' a (m + 1 + 1) = a :: List.range' (a + 1) (m + 1) := rfl
      have hr2 : List.range' a (m + 1 + 1 - 1) = a :: List.range' (a + 1) m := rfl
      rw [hr1, hr2, register_loop]
      simp only [hfa, Bool.false_eq_true, if_false, hsl, if_true, ihx]
      simp

theorem register_loop_success (post : ℕ → PostResult) (rc k : ℕ)
    (hk : k < rc) (hsucc : isSuccess (post k) = true)
    (hfail : ∀ j, j < k → isSuccess (post j) = false) :
    ∀ (n a : ℕ), a + n = rc → a ≤ k →
      register_loop post rc (List.range' a n) =
        (true, k - a + 1, (List.range' a (k - a)).map (fun j => 2 ^ j)) := by
  intro n
  induction n with
  | zero => intro a ha hak; omega
  | succ n ih =>
    intro a ha hak
    by_cases hek : a = k
    · subst hek
      simp [List.range', register_loop, hsucc]
    · have hlt : a < k := by omega
      have hfa : isSuccess (post a) = false := hfail a hlt
      have hsl : a < rc - 1 := by omega
      have ihx := ih (a + 1) (by omega) (by omega)
      have hka : k - a = (k - (a + 1)) + 1 := by omega
      have hr1 : List.range' a (n + 1) = a :: List.range' (a + 1) n := rfl
      have hr2 : List.range' a ((k - (a + 1)) + 1) = a :: List.range' (a + 1) (k - (a + 1)) :=
        rfl
      rw [hr1, register_loop]
      simp only [hfa, Bool.false_eq_true, if_false, hsl, if_true, ihx, hka, hr2]
      simp

/-- Claim C5. `register_server` returns false with no POST attempt when no
receiver URL is configured; otherwise it makes at most `retry_count`
attempts, returns true at the first 200/201 after `k` failures with exactly
`k + 1` attempts and backoff sleeps `2^0, ..., 2^(k-1)` between consecutive
attempts, and returns false after exactly `retry_count` attempts when all
fail, sleeping only between attempts (never after the last). The model is a
total function of the attempt outcomes, so no exception escapes. The two
concrete scenarios of the claim are included. -/
theorem register_server_retry :
    (∀ (post : ℕ → PostResult) (rc : ℕ),
      register_server none post rc = (false, 0, []) ∧
      register_server (some "") post rc = (false, 0, [])) ∧
    (∀ (url : Option String) (post : ℕ → PostResult) (rc : ℕ),
      (register_server url post rc).2.1 ≤ rc) ∧
    (∀ (u : String) (post : ℕ → PostResult) (rc k : ℕ),
      u ≠ "" → k < rc → (∀ j, j < k → isSuccess (post j) = false) →
      isSuccess (post k) = true →
      register_server (some u) post rc =
        (true, k + 1, (List.range k).map (fun j => 2 ^ j))) ∧
    (∀ (u : String) (post : ℕ → PostResult) (rc : ℕ),
      u ≠ "" → (∀ j, j < rc → isSuccess (post j) = false) →
      register_server (some u) post rc =
        (false, rc, (List.range (rc - 1)).map (fun j => 2 ^ j))) ∧
    register_server (some "http://r")
        (fun n => if n < 2 then .exc "conn" else .status 200) 3 = (true, 3, [1, 2]) ∧
    register_server (some "http://r") (fun _ => .exc "conn") 2 = (false, 2, [1]) := by
  refine ⟨?_, ?_, ?_, ?_, ?_, ?_⟩
  · intro post rc; exact ⟨rfl, rfl⟩
  · intro url post rc
    match url with
    | none => simp [register_server]
    | some u =>
      by_cases hu : u = ""
      · simp [register_server, hu]
      · have h := register_loop_attempts_le post rc (List.range rc)
        simpa [register_server, hu] using h
  · intro u post rc k hu hk hfail hsucc
    have h := register_loop_success post rc k hk hsucc hfail rc 0 (by omega) (by omega)
    simpa [register_server, hu, List.range_eq_range'] using h
  · intro u post rc hu hfail
    have h := register_loop_fail post rc hfail rc 0 (by omega)
    simpa [register_server, hu, List.range_eq_range'] using h
  · rfl
  · rfl

/-- Witness for C5: one failure then a 201 with retry count 2 gives success
after exactly 2 attempts and one backoff sleep. -/
theorem register_server_retry_witness :
    register_server (some "u") (fun n => if n < 1 then .exc "x" else .status 201) 2 =
      (true, 2, [1]) := by
  have h := register_server_retry.2.2.1 "u"
    (fun n => if n < 1 then .exc "x" else .status 201) 2 1 (by decide) (by decide)
    (fun j hj => by
      have hj0 : j = 0 := by omega
      subst hj0; rfl)
    rfl
  simpa using h

/-! ## Scheduled heartbeat with hostname-change detection
(src/models/mcp_heartbeat.py lines 15-40) -/

/-- Observable actions of `_cron_send_heartbeat`, listed in execution order:
the synchronous `register_server(...)` call, the `set_param` persisting the
new hostname marker, and the `send_heartbeat(...)` call. -/
inductive HBEvent where
  | register
  | persist (hostname : String)
  | heartbeat
deriving DecidableEq

/-- The `ir.config_parameter` key/value store consumed via
get_param/set_param. -/
abbrev ConfigStore := List (String × String)

/-- Embeds `ICP.get_param(key, default)`. -/
def get_param (icp : ConfigStore) (key dflt : String) : String :=
  (List.lookup key icp).getD dflt

/-- Embeds `ICP.set_param(key, value)`. -/
def set_param : ConfigStore → String → String → ConfigStore
  | [], key, v => [(key, v)]
  | (k2, v2) :: rest, key, v =>
    if k2 = key then (k2, v) :: rest else (k2, v2) :: set_param rest key v

/-- Embeds `MCPHeartbeat._cron_send_heartbeat`: read the stored
`mcp.last_hostname` marker; if the live hostname differs, call
`register_server`, persist the new hostname, and only then call
`send_heartbeat`; otherwise only send the heartbeat. `hb_result` abstracts
the boolean returned by `send_heartbeat`; the result of the registration
call is discarded, as in the source. Returns the final store, the action
trace in execution order, and the cron return value. -/
def cron_send_heartbeat (icp : ConfigStore) (current_hostname : String) (hb_result : Bool) :
    ConfigStore × List HBEvent × Bool :=
  let last_hostname := get_param icp "mcp.last_hostname" ""
  if current_hostname ≠ last_hostname then
    let icp2 := set_param icp "mcp.last_hostname" current_hostname
    (icp2, [HBEvent.register, HBEvent.persist current_hostname, HBEvent.heartbeat], hb_result)
  else
    (icp, [HBEvent.heartbeat], hb_result)

/-- Claim C7. On the scheduled-heartbeat trigger with a hostname mismatch the
action trace is exactly registration, then persisting the new marker, then
the heartbeat, and the store ends up with the marker updated; with a matching
hostname the trace is exactly the heartbeat, with no registration and an
unchanged store. -/
theorem cron_heartbeat_register_ordering :
    (∀ (icp : ConfigStore) (live : String) (r : Bool),
      live ≠ get_param icp "mcp.last_hostname" "" →
      (cron_send_heartbeat icp live r).2.1 =
        [HBEvent.register, HBEvent.persist live, HBEvent.heartbeat] ∧
      (cron_send_heartbeat icp live r).1 = set_param icp "mcp.last_hostname" live) ∧
    (∀ (icp : ConfigStore) (live : String) (r : Bool),
      live = get_param icp "mcp.last_hostname" "" →
      (cron_send_heartbeat icp live r).2.1 = [HBEvent.heartbeat] ∧
      HBEvent.register ∉ (cron_send_heartbeat icp live r).2.1 ∧
      (cron_send_heartbeat icp live r).1 = icp) := by
  constructor
  · intro icp live r h
    constructor <;> simp [cron_send_heartbeat, h]
  · intro icp live r h
    refine ⟨?_, ?_, ?_⟩ <;> simp [cron_send_heartbeat, h]

/-- Witness for C7 at a concrete mismatching and a concrete matching store. -/
theorem cron_heartbeat_register_ordering_witness :
    ((cron_send_heartbeat [] "h1" true).2.1 =
        [HBEvent.register, HBEvent.persist "h1", HBEvent.heartbeat] ∧
      (cron_send_heartbeat [] "h1" true).1 = set_param [] "mcp.last_hostname" "h1") ∧
    ((cron_send_heartbeat [("mcp.last_hostname", "h1")] "h1" true).2.1 =
        [HBEvent.heartbeat] ∧
      HBEvent.register ∉ (cron_send_heartbeat [("mcp.last_hostname", "h1")] "h1" true).2.1 ∧
      (cron_send_heartbeat [("mcp.last_hostname", "h1")] "h1" true).1 =
        [("mcp.last_hostname", "h1")]) :=
  ⟨cron_heartbeat_register_ordering.1 [] "h1" true (by decide),
   cron_heartbeat_register_ordering.2 [("mcp.last_hostname", "h1")] "h1" true (by decide)⟩

/-! ## Tool registry (src/tools/registry.py) -/

/-- The handler functions the registry maps tool names to, one tag per
Python function referenced in `get_tool_registry`. -/
inductive ToolHandler where
  | execute_command
  | query_database
  | execute_sql
  | get_db_schema
  | read_file
  | write_file
  | odoo_shell_exec
  | service_status
  | read_config
  | list_modules
  | get_module_info
  | install_module
  | upgrade_module
deriving DecidableEq

/-- Embeds `get_tool_registry` (src/tools/registry.py lines 12-39): the
mapping of tool names to handler functions, in source order. -/
def get_tool_registry : List (String × ToolHandler) :=
  [("execute_command", .execute_command),
   ("query_database", .query_database),
   ("execute_sql", .execute_sql),
   ("get_db_schema", .get_db_schema),
   ("read_file", .read_file),
   ("write_file", .write_file),
   ("odoo_shell", .odoo_shell_exec),
   ("service_status", .service_status),
   ("read_config", .read_config),
   ("list_modules", .list_modules),
   ("get_module_info", .get_module_info),
   ("install_module", .install_module),
   ("upgrade_module", .upgrade_module)]

/-- A tool descriptor as stored in `get_tool_schemas`: every entry of the
source dict has exactly the two keys `description` and `parameters`. -/
structure ToolSchema where
  description : String
  parameters : Json

/-- Embeds `get_tool_schemas` (src/tools/registry.py lines 42-316), in source
order, with the parameter schemas transcribed as JSON values. -/
def get_tool_schemas : List (String × ToolSchema) :=
  [("execute_command",
    { description := "Execute a shell command on the Odoo server",
      parameters := .obj
        [("type", .str "object"),
         ("properties", .obj
           [("command", .obj [("type", .str "string"),
              ("description", .str "The shell command to execute")]),
            ("working_directory", .obj [("type", .str "string"),
              ("description", .str "Working directory for command execution")]),
            ("timeout", .obj [("type", .str "integer"),
              ("description", .str "Maximum execution time in seconds"),
              ("default", .int 30)]),
            ("env_vars", .obj [("type", .str "object"),
              ("description", .str "Additional environment variables")])]),
         ("required", .arr [.str "command"])] }),
   ("query_database",
    { description := "Execute a read-only SQL query against the Odoo PostgreSQL database",
      parameters := .obj
        [("type", .str "object"),
         ("properties", .obj
           [("query", .obj [("type", .str "string"),
              ("description", .str "SQL query to execute (SELECT or read-only)")]),
            ("params", .obj [("type", .str "array"),
              ("description", .str "Parameterized query values"),
              ("items", .obj [])]),
            ("limit", .obj [("type", .str "integer"),
              ("description", .str "Maximum number of rows to return"),
              ("default", .int 1000)])]),
         ("required", .arr [.str "query"])] }),
   ("execute_sql",
    { description := "Execute a write SQL statement (INSERT, UPDATE, DELETE, DDL)",
      parameters := .obj
        [("type", .str "object"),
         ("properties", .obj
           [("statement", .obj [("type", .str "string"),
              ("description", .str "SQL statement to execute")]),
            ("params", .obj [("type", .str "array"),
              ("description", .str "Parameterized query values"),
              ("items", .obj [])])]),
         ("required", .arr [.str "statement"])] }),
   ("get_db_schema",
    { description := "Retrieve database schema information",
      parameters := .obj
        [("type", .str "object"),
         ("properties", .obj
           [("action", .obj [("type", .str "string"),
              ("enum", .arr [.str "list_tables", .str "describe_table",
                .str "list_indexes", .str "list_constraints"]),
              ("description", .str "What schema information to retrieve")]),
            ("table_name", .obj [("type", .str "string"),
              ("description",
               .str "Table name (required for describe_table, list_indexes, list_constraints)")]),
            ("schema_name", .obj [("type", .str "string"),
              ("description", .str "PostgreSQL schema"),
              ("default", .str "public")])]),
         ("required", .arr [.str "action"])] }),
   ("read_file",
    { description := "Read the contents of a file from the Odoo server filesystem",
      parameters := .obj
        [("type", .str "object"),
         ("properties", .obj
           [("path", .obj [("type", .str "string"),
              ("description", .str "Absolute path to the file to read")]),
            ("encoding", .obj [("type", .str "string"),
              ("description", .str "Text encoding (use \"binary\" for base64 output)"),
              ("default", .str "utf-8")]),
            ("offset", .obj [("type", .str "integer"),
              ("description", .str "Line number to start reading from (1-based)"),
              ("default", .int 0)]),
            ("limit", .obj [("type", .str "integer"),
              ("description", .str "Maximum number of lines to return (0 = entire file)"),
              ("default", .int 0)])]),
         ("required", .arr [.str "path"])] }),
   ("write_file",
    { description := "Write content to a file on the Odoo server filesystem",
      parameters := .obj
        [("type", .str "object"),
         ("properties", .obj
           [("path", .obj [("type", .str "string"),
              ("description", .str "Absolute path to the file to write")]),
            ("content", .obj [("type", .str "string"),
              ("description", .str "Content to write")]),
            ("encoding", .obj [("type", .str "string"),
              ("description", .str "Text encoding (use \"binary\" for base64 input)"),
              ("default", .str "utf-8")]),
            ("mode", .obj [("type", .str "string"),
              ("enum", .arr [.str "overwrite", .str "append"]),
              ("description", .str "Write mode"),
              ("default", .str "overwrite")]),
            ("create_directories", .obj [("type", .str "boolean"),
              ("description", .str "Create parent directories if they do not exist"),
              ("default", .bool true)])]),
         ("required", .arr [.str "path", .str "content"])] }),
   ("odoo_shell",
    { description := "Execute Python code in the Odoo environment with ORM access",
      parameters := .obj
        [("type", .str "object"),
         ("properties", .obj
           [("code", .obj [("type", .str "string"),
              ("description", .str "Python code to execute (env variable is available)")]),
            ("timeout", .obj [("type", .str "integer"),
              ("description", .str "Maximum execution time in seconds"),
              ("default", .int 30)])]),
         ("required", .arr [.str "code"])] }),
   ("service_status",
    { description := "Check and manage services (odoo, postgresql, nginx)",
      parameters := .obj
        [("type", .str "object"),
         ("properties", .obj
           [("service", .obj [("type", .str "string"),
              ("description", .str "Service name"),
              ("default", .str "odoo")]),
            ("action", .obj [("type", .str "string"),
              ("enum", .arr [.str "status", .str "start", .str "stop",
                .str "restart", .str "logs"]),
              ("description", .str "Action to perform"),
              ("default", .str "status")]),
            ("log_lines", .obj [("type", .str "integer"),
              ("description", .str "Number of log lines to return (for logs action)"),
              ("default", .int 50)])])] }),
   ("read_config",
    { description := "Read the Odoo server configuration file",
      parameters := .obj
        [("type", .str "object"),
         ("properties", .obj
           [("key", .obj [("type", .str "string"),
              ("description", .str "Specific configuration key to read (null = all)")])])] }),
   ("list_modules",
    { description := "List Odoo modules with their installation status",
      parameters := .obj
        [("type", .str "object"),
         ("properties", .obj
           [("state", .obj [("type", .str "string"),
              ("enum", .arr [.str "installed", .str "uninstalled", .str "to_upgrade",
                .str "to_install", .str "to_remove", .str "all"]),
              ("description", .str "Filter by module state"),
              ("default", .str "all")]),
            ("search", .obj [("type", .str "string"),
              ("description", .str "Search term to filter module names or descriptions")]),
            ("limit", .obj [("type", .str "integer"),
              ("description", .str "Maximum number of modules to return"),
              ("default", .int 100)])])] }),
   ("get_module_info",
    { description := "Get detailed information about a specific module",
      parameters := .obj
        [("type", .str "object"),
         ("properties", .obj
           [("module_name", .obj [("type", .str "string"),
              ("description", .str "Technical name of the module")])]),
         ("required", .arr [.str "module_name"])] }),
   ("install_module",
    { description := "Install an Odoo module",
      parameters := .obj
        [("type", .str "object"),
         ("properties", .obj
           [("module_name", .obj [("type", .str "string"),
              ("description", .str "Technical name of the module to install")])]),
         ("required", .arr [.str "module_name"])] }),
   ("upgrade_module",
    { description := "Upgrade an Odoo module",
      parameters := .obj
        [("type", .str "object"),
         ("properties", .obj
           [("module_name", .obj [("type", .str "string"),
              ("description", .str "Technical name of the module to upgrade")])]),
         ("required", .arr [.str "module_name"])] })]

/-- Claim C9. The registry keys and the schema keys are each duplicate-free
and equal as lists (hence as sets): every registered tool name has exactly
one descriptor and every described tool name exactly one handler. -/
theorem tool_registry_schema_bijection :
    (get_tool_registry.map Prod.fst).Nodup ∧
    (get_tool_schemas.map Prod.fst).Nodup ∧
    get_tool_registry.map Prod.fst = get_tool_schemas.map Prod.fst := by
  refine ⟨?_, ?_, rfl⟩ <;> decide

/-! ## Protocol dispatcher (src/services/mcp_server.py) -/

mutual

/-- Models Python `json.dumps` up to whitespace and string escaping; the
exact rendering is never constrained by the embedded behaviour, only that a
text block is produced. -/
def json_dumps : Json → String
  | .null => "null"
  | .bool b => if b then "true" else "false"
  | .int n => toString n
  | .str s => "\"" ++ s ++ "\""
  | .arr xs => "[" ++ dumpsList xs ++ "]"
  | .obj fs => "\x7b" ++ dumpsFields fs ++ "\x7d"

def dumpsList : List Json → String
  | [] => ""
  | [x] => json_dumps x
  | x :: rest => json_dumps x ++ ", " ++ dumpsList rest

def dumpsFields : List (String × Json) → String
  | [] => ""
  | [(k, v)] => "\"" ++ k ++ "\": " ++ json_dumps v
  | (k, v) :: rest => "\"" ++ k ++ "\": " ++ json_dumps v ++ ", " ++ dumpsFields rest

end

/-- Models a Python f-string interpolation of a JSON value: `str()` of a
string is the bare string; the rendering of other values is a diagnostic
approximation, used only inside log-style messages that no claim
constrains. -/
def py_text : Json → String
  | .str s => s
  | v => json_dumps v

/-- Python `value.get(key, default)`: field lookup with default on a dict,
`AttributeError` on anything else. -/
def py_dict_get (v : Json) (key : String) (dflt : Json) : Except String Json :=
  match v with
  | .obj fs => .ok ((List.lookup key fs).getD dflt)
  | _ => .error "AttributeError: object has no attribute get"

/-- True iff `p` is a prefix of `s` (Python `s.startswith(p)`). -/
def strStarts (p s : String) : Bool :=
  p.toList.isPrefixOf s.toList

/-- The external collaborators the dispatcher path calls into: the tool
handler bodies behind the registry, and the resource readers. An
`Except.error` is a raised Python exception carrying its message. -/
structure Collab where
  run_tool : String → Json → Except String Json
  read_config : Except String Json
  service_logs : String → Except String (List String)
  db_schema : String → Except String Json
  list_modules : Except String Json
  system_info : Except String Json

/-- Embeds `call_tool` (src/tools/registry.py lines 319-341): raise
`ValueError` for a name missing from the registry, else invoke the handler. -/
def call_tool (c : Collab) (tool_name : String) (parameters : Json) : Except String Json :=
  if (List.lookup tool_name get_tool_registry).isSome then c.run_tool tool_name parameters
  else .error ("Unknown tool: " ++ tool_name)

/-- Embeds `MCPServerHandler._error_response` (lines 318-337): a JSON-RPC
error envelope with the protocol tag, an error object (optional `data`), and
the echoed id. -/
def error_response (code : Int) (message : String) (data : Option String)
    (request_id : Json) : Json :=
  .obj [("jsonrpc", .str "2.0"),
        ("error", .obj
          (("code", Json.int code) :: ("message", Json.str message) ::
            (match data with
             | some d => [("data", Json.str d)]
             | none => []))),
        ("id", request_id)]

/-- Shape shared by every success envelope the handlers build: the protocol
tag, a `result` value, and the echoed id. -/
def result_response (result : Json) (request_id : Json) : Json :=
  .obj [("jsonrpc", .str "2.0"), ("result", result), ("id", request_id)]

/-- Embeds `_handle_initialize` (lines 97-113). -/
def handle_method_init (request_id : Json) : Json :=
  result_response (.obj
    [("protocolVersion", .str "2024-11-05"),
     ("serverInfo", .obj [("name", .str "odoo-dev-mcp"), ("version", .str "1.0.0")]),
     ("capabilities", .obj [("tools", .obj []), ("resources", .obj [])])]) request_id

/-- Embeds `_handle_tools_list` (lines 115-131): one entry per schema, with
`description` and `parameters` projected into the wire fields. -/
def handle_tools_list (request_id : Json) : Json :=
  result_response (.obj
    [("tools", .arr (get_tool_schemas.map (fun p =>
      Json.obj [("name", .str p.1), ("description", .str p.2.description),
                ("inputSchema", p.2.parameters)])))]) request_id

/-- The try block of `_handle_tools_call` (lines 135-171): an
`Except.error` is an exception escaping the block. -/
def tools_call_body (c : Collab) (params : Json) (request_id : Json) :
    Except String Json :=
  match py_dict_get params "name" Json.null with
    | .error e => .error e
    | .ok tool_name =>
      match py_dict_get params "arguments" (Json.obj []) with
      | .error e => .error e
      | .ok tool_params =>
        if isFalsy tool_name then
          .ok (error_response (-32602) "Invalid params" (some "Tool name is required")
            request_id)
        else
          match tool_name with
          | .str s =>
            if (List.lookup s get_tool_registry).isSome then
              match call_tool c s tool_params with
              | .ok result =>
                .ok (result_response (.obj
                  [("content", .arr [.obj [("type", .str "text"),
                    ("text", .str (json_dumps result))]])]) request_id)
              | .error e =>
                .ok (error_response (-32603) "Tool execution failed" (some e) request_id)
            else
              .ok (error_response (-32602) "Invalid params"
                (some ("Unknown tool: " ++ s)) request_id)
          | _ =>
            .ok (error_response (-32602) "Invalid params"
              (some ("Unknown tool: " ++ py_text tool_name)) request_id)

/-- Embeds `_handle_tools_call` (lines 133-180): run the try block; a raised
exception is converted to the -32603 response by the except clause. -/
def handle_tools_call (c : Collab) (params : Json) (request_id : Json) : Json :=
  match tools_call_body c params request_id with
  | .ok resp => resp
  | .error e => error_response (-32603) "Tool execution failed" (some e) request_id

/-- Embeds `_handle_resources_list` (lines 182-223): the fixed catalog. -/
def handle_resources_list (request_id : Json) : Json :=
  result_response (.obj
    [("resources", .arr
      [.obj [("uri", .str "odoo://config"),
             ("name", .str "Odoo Configuration"),
             ("description",
              .str "Current Odoo server configuration (with sensitive values masked)"),
             ("mimeType", .str "application/json")],
       .obj [("uri", .str "odoo://logs/\x7bservice\x7d"),
             ("name", .str "Service Logs"),
             ("description", .str "Recent log entries for the specified service"),
             ("mimeType", .str "text/plain")],
       .obj [("uri", .str "odoo://schema/\x7btable\x7d"),
             ("name", .str "Database Schema"),
             ("description", .str "Schema information for a specific database table"),
             ("mimeType", .str "application/json")],
       .obj [("uri", .str "odoo://modules"),
             ("name", .str "Installed Modules"),
             ("description", .str "List of all installed Odoo modules with version info"),
             ("mimeType", .str "application/json")],
       .obj [("uri", .str "odoo://system"),
             ("name", .str "System Information"),
             ("description",
              .str "System information -- OS, disk, memory, Odoo version, Python version"),
             ("mimeType", .str "application/json")]])]) request_id

/-- Success envelope of `_handle_resources_read`: the text and MIME type
under the requested URI. -/
def resources_response (uri mime text : String) (request_id : Json) : Json :=
  result_response (.obj
    [("contents", .arr [.obj [("uri", .str uri), ("mimeType", .str mime),
      ("text", .str text)]])]) request_id

/-- The try block of `_handle_resources_read` (lines 227-307): URI dispatch
over the five resource branches, each delegating to a collaborator. -/
def resources_read_body (c : Collab) (params : Json) (request_id : Json) :
    Except String Json :=
  match py_dict_get params "uri" Json.null with
    | .error e => .error e
    | .ok uri =>
      if isFalsy uri then
        .ok (error_response (-32602) "Invalid params" (some "Resource URI is required")
          request_id)
      else
        match uri with
        | .str u =>
          if u = "odoo://config" then
            match c.read_config with
            | .ok cfg => .ok (resources_response u "application/json" (json_dumps cfg)
                request_id)
            | .error e => .error e
          else if strStarts "odoo://logs/" u then
            match c.service_logs ((u.splitOn "/").getLastD "") with
            | .ok ls => .ok (resources_response u "text/plain"
                (String.intercalate "\n" ls) request_id)
            | .error e => .error e
          else if strStarts "odoo://schema/" u then
            match c.db_schema ((u.splitOn "/").getLastD "") with
            | .ok sch => .ok (resources_response u "application/json" (json_dumps sch)
                request_id)
            | .error e => .error e
          else if u = "odoo://modules" then
            match c.list_modules with
            | .ok mods => .ok (resources_response u "application/json" (json_dumps mods)
                request_id)
            | .error e => .error e
          else if u = "odoo://system" then
            match c.system_info with
            | .ok info => .ok (resources_response u "application/json" (json_dumps info)
                request_id)
            | .error e => .error e
          else
            .ok (error_response (-32602) "Invalid params"
              (some ("Unknown resource URI: " ++ u)) request_id)
        | _ => .error "AttributeError: object has no attribute startswith"

/-- Embeds `_handle_resources_read` (lines 225-316): run the try block; a
raised exception is converted to the -32603 response by the except clause. -/
def handle_resources_read (c : Collab) (params : Json) (request_id : Json) : Json :=
  match resources_read_body c params request_id with
  | .ok resp => resp
  | .error e => error_response (-32603) "Resource read failed" (some e) request_id

/-- Embeds `MCPServerHandler.handle_request` (lines 28-95): envelope
validation (object shape, protocol tag equal to the fixed literal `2.0`,
non-falsy method), then routing on the method string in source order,
unknown methods answered with -32601. -/
def handle_request (c : Collab) (req : Json) : Json :=
  match req with
  | .obj fs =>
    let jsonrpc := (List.lookup "jsonrpc" fs).getD Json.null
    let method := (List.lookup "method" fs).getD Json.null
    let request_id := (List.lookup "id" fs).getD Json.null
    if !(jeq jsonrpc (.str "2.0")) then
      error_response (-32600) "Invalid Request" (some "jsonrpc must be 2.0") request_id
    else if isFalsy method then
      error_response (-32600) "Invalid Request" (some "method is required") request_id
    else if jeq method (.str "tools/list") then
      handle_tools_list request_id
    else if jeq method (.str "tools/call") then
      handle_tools_call c ((List.lookup "params" fs).getD (Json.obj [])) request_id
    else if jeq method (.str "resources/list") then
      handle_resources_list request_id
    else if jeq method (.str "resources/read") then
      handle_resources_read c ((List.lookup "params" fs).getD (Json.obj [])) request_id
    else if jeq method (.str "initialize") then
      handle_method_init request_id
    else
      error_response (-32601) "Method not found"
        (some ("Unknown method: " ++ py_text method)) request_id
  | _ =>
    error_response (-32600) "Invalid Request" (some "Request must be a JSON object")
      Json.null

/-- Whether a response object carries the given top-level field. -/
def hasField (resp : Json) (key : String) : Bool :=
  match resp with
  | .obj fs => (List.lookup key fs).isSome
  | _ => false

/-- The top-level id field of a response, when present. -/
def idField (resp : Json) : Option Json :=
  match resp with
  | .obj fs => List.lookup "id" fs
  | _ => none

/-- A field of the error object of a response, when present. -/
def errField (resp : Json) (key : String) : Option Json :=
  match resp with
  | .obj fs =>
    match List.lookup "error" fs with
    | some (.obj es) => List.lookup key es
    | _ => none
  | _ => none

/-- The response-envelope invariant of claim C8: exactly one of `result` and
`error`, and the id echoed. -/
def wellFormed (resp : Json) (request_id : Json) : Prop :=
  hasField resp "result" = !hasField resp "error" ∧ idField resp = some request_id

theorem wf_error_response (code : Int) (msg : String) (d : Option String) (i : Json) :
    wellFormed (error_response code msg d i) i := by
  refine ⟨?_, ?_⟩ <;> simp [error_response, hasField, idField, List.lookup]

theorem wf_result_response (r i : Json) : wellFormed (result_response r i) i := by
  refine ⟨?_, ?_⟩ <;> simp [result_response, hasField, idField, List.lookup]

theorem errField_error_response (code : Int) (msg : String) (d : Option String) (i : Json) :
    errField (error_response code msg d i) "code" = some (.int code) := by
  simp [error_response, errField, List.lookup]

theorem errField_error_response_data (code : Int) (msg s : String) (i : Json) :
    errField (error_response code msg (some s) i) "data" = some (.str s) := by
  simp [error_response, errField, List.lookup]

theorem wf_handle_tools_call (c : Collab) (params request_id : Json) :
    wellFormed (handle_tools_call c params request_id) request_id := by
  unfold handle_tools_call
  split
  · rename_i resp heq
    unfold tools_call_body at heq
    repeat' split at heq
    all_goals
      first
      | (injection heq with h; subst h;
         first
         | exact wf_error_response _ _ _ _
         | exact wf_result_response _ _)
      | (cases heq)
  · exact wf_error_response _ _ _ _

theorem wf_handle_resources_read (c : Collab) (params request_id : Json) :
    wellFormed (handle_resources_read c params request_id) request_id := by
  unfold handle_resources_read
  split
  · rename_i resp heq
    unfold resources_read_body at heq
    repeat' split at heq
    all_goals
      first
      | (injection heq with h; subst h;
         first
         | exact wf_error_response _ _ _ _
         | exact wf_result_response _ _)
      | (cases heq)
  · exact wf_error_response _ _ _ _

/-- Claim C8. Every response of the dispatcher carries exactly one of
`result` and `error`, and its `id` equals the id carried by the request
(null when the envelope is not an object carrying one). -/
theorem dispatcher_response_wellformed :
    ∀ (c : Collab) (req : Json),
      hasField (handle_request c req) "result" = !hasField (handle_request c req) "error" ∧
      idField (handle_request c req) =
        some (match req with
              | .obj fs => (List.lookup "id" fs).getD Json.null
              | _ => Json.null) := by
  intro c req
  have key : wellFormed (handle_request c req)
      (match req with
       | .obj fs => (List.lookup "id" fs).getD Json.null
       | _ => Json.null) := by
    cases req with
    | obj fs =>
      show wellFormed (handle_request c (.obj fs)) ((List.lookup "id" fs).getD Json.null)
      simp only [handle_request]
      split
      · exact wf_error_response _ _ _ _
      · split
        · exact wf_error_response _ _ _ _
        · split
          · exact wf_result_response _ _
          · split
            · exact wf_handle_tools_call _ _ _
            · split
              · exact wf_result_response _ _
              · split
                · exact wf_handle_resources_read _ _ _
                · split
                  · exact wf_result_response _ _
                  · exact wf_error_response _ _ _ _
    | null =>
      exact wf_error_response (-32600) "Invalid Request"
        (some "Request must be a JSON object") Json.null
    | bool b =>
      exact wf_error_response (-32600) "Invalid Request"
        (some "Request must be a JSON object") Json.null
    | int n =>
      exact wf_error_response (-32600) "Invalid Request"
        (some "Request must be a JSON object") Json.null
    | str s =>
      exact wf_error_response (-32600) "Invalid Request"
        (some "Request must be a JSON object") Json.null
    | arr xs =>
      exact wf_error_response (-32600) "Invalid Request"
        (some "Request must be a JSON object") Json.null
  exact key

theorem jeq_str_iff (v : Json) (t : String) : jeq v (.str t) = true ↔ v = .str t := by
  cases v <;> simp [jeq]

theorem handle_request_routes_tools_call (c : Collab) (fs pfs : List (String × Json))
    (hj : (List.lookup "jsonrpc" fs).getD Json.null = .str "2.0")
    (hm : (List.lookup "method" fs).getD Json.null = .str "tools/call")
    (hp : (List.lookup "params" fs).getD (Json.obj []) = .obj pfs) :
    handle_request c (.obj fs) =
      handle_tools_call c (.obj pfs) ((List.lookup "id" fs).getD Json.null) := by
  simp [handle_request, hj, hm, hp, jeq, isFalsy]

theorem tools_call_missing_name (c : Collab) (pfs : List (String × Json)) (rid : Json)
    (h : isFalsy ((List.lookup "name" pfs).getD Json.null) = true) :
    errField (handle_tools_call c (.obj pfs) rid) "code" = some (.int (-32602)) := by
  simp [handle_tools_call, tools_call_body, py_dict_get, h, errField_error_response]

theorem tools_call_unknown_tool (c : Collab) (pfs : List (String × Json)) (rid : Json)
    (s : String)
    (hname : List.lookup "name" pfs = some (.str s))
    (hreg : List.lookup s get_tool_registry = none) :
    errField (handle_tools_call c (.obj pfs) rid) "code" = some (.int (-32602)) := by
  by_cases hs : s = ""
  · subst hs
    apply tools_call_missing_name
    simp [hname, isFalsy]
  · simp [handle_tools_call, tools_call_body, py_dict_get, hname, isFalsy, hs, hreg,
      errField_error_response]

theorem tools_call_handler_raises (c : Collab) (pfs : List (String × Json)) (rid : Json)
    (s msg : String)
    (hname : List.lookup "name" pfs = some (.str s))
    (hreg : (List.lookup s get_tool_registry).isSome = true)
    (hrun : c.run_tool s ((List.lookup "arguments" pfs).getD (.obj [])) = .error msg) :
    errField (handle_tools_call c (.obj pfs) rid) "code" = some (.int (-32603)) ∧
    errField (handle_tools_call c (.obj pfs) rid) "data" = some (.str msg) := by
  have hs : s ≠ "" := by
    intro h
    subst h
    have hnone : (List.lookup "" get_tool_registry).isSome = false := rfl
    rw [hnone] at hreg
    cases hreg
  constructor <;>
    simp [handle_tools_call, tools_call_body, py_dict_get, hname, isFalsy, hs, hreg,
      call_tool, hrun, errField_error_response, errField_error_response_data]

/-- Claim C4. For every envelope object the dispatcher processes: a protocol
tag different from the fixed literal, or a missing (falsy) method, yields
code -32600; a non-blank unknown method string yields -32601; `tools/call`
with a missing/blank tool name, or a string name absent from the registry,
yields -32602; and a registered handler that raises yields -32603 with the
error `data` field equal to the raised exception message. -/
theorem dispatcher_error_codes :
    (∀ (c : Collab) (fs : List (String × Json)),
      ((List.lookup "jsonrpc" fs).getD Json.null ≠ Json.str "2.0" ∨
        isFalsy ((List.lookup "method" fs).getD Json.null) = true) →
      errField (handle_request c (.obj fs)) "code" = some (.int (-32600))) ∧
    (∀ (c : Collab) (fs : List (String × Json)) (m : String),
      (List.lookup "jsonrpc" fs).getD Json.null = Json.str "2.0" →
      (List.lookup "method" fs).getD Json.null = Json.str m →
      m ≠ "" →
      m ∉ ["tools/list", "tools/call", "resources/list", "resources/read", "initialize"] →
      errField (handle_request c (.obj fs)) "code" = some (.int (-32601))) ∧
    (∀ (c : Collab) (fs pfs : List (String × Json)),
      (List.lookup "jsonrpc" fs).getD Json.null = Json.str "2.0" →
      (List.lookup "method" fs).getD Json.null = Json.str "tools/call" →
      (List.lookup "params" fs).getD (Json.obj []) = Json.obj pfs →
      (isFalsy ((List.lookup "name" pfs).getD Json.null) = true ∨
        (∃ s, List.lookup "name" pfs = some (Json.str s) ∧
          List.lookup s get_tool_registry = none)) →
      errField (handle_request c (.obj fs)) "code" = some (.int (-32602))) ∧
    (∀ (c : Collab) (fs pfs : List (String × Json)) (s msg : String),
      (List.lookup "jsonrpc" fs).getD Json.null = Json.str "2.0" →
      (List.lookup "method" fs).getD Json.null = Json.str "tools/call" →
      (List.lookup "params" fs).getD (Json.obj []) = Json.obj pfs →
      List.lookup "name" pfs = some (Json.str s) →
      (List.lookup s get_tool_registry).isSome = true →
      c.run_tool s ((List.lookup "arguments" pfs).getD (.obj [])) = .error msg →
      errField (handle_request c (.obj fs)) "code" = some (.int (-32603)) ∧
      errField (handle_request c (.obj fs)) "data" = some (.str msg)) := by
  refine ⟨?_, ?_, ?_, ?_⟩
  · intro c fs h
    by_cases hjq : jeq ((List.lookup "jsonrpc" fs).getD Json.null) (.str "2.0") = true
    · have hj := (jeq_str_iff _ _).mp hjq
      have hfal : isFalsy ((List.lookup "method" fs).getD Json.null) = true := by
        rcases h with h | h
        · exact absurd hj h
        · exact h
      simp [handle_request, hjq, hfal, errField_error_response]
    · simp only [Bool.not_eq_true] at hjq
      simp [handle_request, hjq, errField_error_response]
  · intro c fs m hj hm hm0 hnot
    have h1 : m ≠ "tools/list" := fun h => hnot (by simp [h])
    have h2 : m ≠ "tools/call" := fun h => hnot (by simp [h])
    have h3 : m ≠ "resources/list" := fun h => hnot (by simp [h])
    have h4 : m ≠ "resources/read" := fun h => hnot (by simp [h])
    have h5 : m ≠ "initialize" := fun h => hnot (by simp [h])
    simp [handle_request, hj, hm, jeq, isFalsy, hm0, h1, h2, h3, h4, h5,
      errField_error_response]
  · intro c fs pfs hj hm hp h
    rw [handle_request_routes_tools_call c fs pfs hj hm hp]
    rcases h with h | ⟨s, hname, hreg⟩
    · exact tools_call_missing_name _ _ _ h
    · exact tools_call_unknown_tool _ _ _ _ hname hreg
  · intro c fs pfs s msg hj hm hp hname hreg hrun
    rw [handle_request_routes_tools_call c fs pfs hj hm hp]
    exact tools_call_handler_raises _ _ _ _ _ hname hreg hrun

/-- A concrete collaborator assignment whose every tool handler raises with
message `boom`; used only to instantiate universally quantified theorems. -/
def testCollab : Collab where
  run_tool := fun _ _ => .error "boom"
  read_config := .ok .null
  service_logs := fun _ => .ok []
  db_schema := fun _ => .ok .null
  list_modules := .ok .null
  system_info := .ok .null

/-- Witness for C4 at concrete requests. -/
theorem dispatcher_error_codes_witness :
    errField (handle_request testCollab (.obj [("jsonrpc", .str "1.0")])) "code" =
      some (.int (-32600)) ∧
    errField (handle_request testCollab
        (.obj [("jsonrpc", .str "2.0"), ("method", .str "nonexistent/method")])) "code" =
      some (.int (-32601)) ∧
    errField (handle_request testCollab
        (.obj [("jsonrpc", .str "2.0"), ("method", .str "tools/call"),
               ("params", .obj [("name", .str "no_such_tool")])])) "code" =
      some (.int (-32602)) ∧
    (errField (handle_request testCollab
        (.obj [("jsonrpc", .str "2.0"), ("method", .str "tools/call"),
               ("params", .obj [("name", .str "read_file")]), ("id", .int 7)])) "code" =
      some (.int (-32603)) ∧
     errField (handle_request testCollab
        (.obj [("jsonrpc", .str "2.0"), ("method", .str "tools/call"),
               ("params", .obj [("name", .str "read_file")]), ("id", .int 7)])) "data" =
      some (.str "boom")) := by
  refine ⟨?_, ?_, ?_, ?_⟩
  · refine dispatcher_error_codes.1 testCollab _ (Or.inl ?_)
    simp [List.lookup]
  · exact dispatcher_error_codes.2.1 testCollab _ "nonexistent/method"
      (by simp [List.lookup]) (by simp [List.lookup]) (by decide) (by decide)
  · exact dispatcher_error_codes.2.2.1 testCollab _ [("name", .str "no_such_tool")]
      (by simp [List.lookup]) (by simp [List.lookup]) (by simp [List.lookup])
      (Or.inr ⟨"no_such_tool", by simp [List.lookup], rfl⟩)
  · exact dispatcher_error_codes.2.2.2 testCollab _ [("name", .str "read_file")]
      "read_file" "boom"
      (by simp [List.lookup]) (by simp [List.lookup]) (by simp [List.lookup])
      (by simp [List.lookup]) rfl rfl

end OdooMCP
